import Mathlib

/-!
Verification development for the building-penalty resolution pipeline
(`lib/calculations.py`, `lib/validators.py`, `lib/waterfall.py`,
`lib/storage.py`).  Python `Decimal` values are embedded as exact
rationals (`ℚ`); `Decimal.quantize(Decimal("0.01"), ROUND_HALF_UP)` is
embedded as `quantize2`.  Strings are embedded as lists of characters,
restricted to ASCII (the repository only ever handles ASCII identifiers
and addresses).
-/

/-- Round a rational to the nearest integer, ties away from zero: the
embedding of `ROUND_HALF_UP` applied with exponent 0.  `Rat.floor` is
used (rather than the `⌊⌋` notation) to keep the definition
kernel-reducible on concrete inputs. -/
def roundHalfUp (q : ℚ) : ℤ :=
  if 0 ≤ q then (q + 1 / 2).floor else -((-q + 1 / 2).floor)

/-- `Rat.floor` agrees with the floor of the archimedean order on `ℚ`. -/
theorem ratFloor_eq_floor (q : ℚ) : q.floor = ⌊q⌋ :=
  (Rat.floor_def' q).trans Rat.floor_def.symm

/-- `roundHalfUp` written with the standard floor. -/
theorem roundHalfUp_def (q : ℚ) :
    roundHalfUp q = if 0 ≤ q then ⌊q + 1 / 2⌋ else -⌊-q + 1 / 2⌋ := by
  simp [roundHalfUp, ratFloor_eq_floor]

/-- Embedding of `x.quantize(Decimal("0.01"), rounding=ROUND_HALF_UP)`:
round to 2 fractional digits, ties away from zero. -/
def quantize2 (q : ℚ) : ℚ :=
  (roundHalfUp (q * 100) : ℚ) / 100

/-- The two LL97 compliance periods (`"2024-2029"` and `"2030-2034"`),
the only keys of `CARBON_COEFFICIENTS` and `EMISSIONS_FACTORS` and the
only periods `calculate_ll97_penalty` iterates over. -/
inductive Period where
  | y2024_2029
  | y2030_2034
deriving DecidableEq, Repr

/-- The four per-fuel carbon coefficients of one compliance period
(one inner dict of `CARBON_COEFFICIENTS` in `lib/calculations.py`). -/
structure FuelCoeffs where
  electricity : ℚ
  natural_gas : ℚ
  fuel_oil : ℚ
  steam : ℚ
deriving DecidableEq, Repr

/-- `CARBON_COEFFICIENTS` from `lib/calculations.py` (tCO2e per unit). -/
def CARBON_COEFFICIENTS : Period → FuelCoeffs
  | .y2024_2029 =>
      { electricity := 0.000288962
        natural_gas := 0.00005311
        fuel_oil := 0.00007421
        steam := 0.00004493 }
  | .y2030_2034 =>
      { electricity := 0.000145
        natural_gas := 0.00005311
        fuel_oil := 0.00007421
        steam := 0.0000432 }

/-- `EMISSIONS_FACTORS` from `lib/calculations.py` (tCO2e per sqft):
a use type absent from the period's dict maps to `none`. -/
def EMISSIONS_FACTORS : Period → String → Option ℚ
  | .y2024_2029, u =>
      match u with
      | "adult_education" => some 0.00758
      | "ambulatory_surgical_center" => some 0.01181
      | "automobile_dealership" => some 0.00675
      | "bank_branch" => some 0.00987
      | "bowling_alley" => some 0.00574
      | "college_university" => some 0.00987
      | "convenience_store_without_gas_station" => some 0.00675
      | "courthouse" => some 0.00426
      | "data_center" => some 0.02381
      | "distribution_center" => some 0.00574
      | "enclosed_mall" => some 0.01074
      | "financial_office" => some 0.00846
      | "fitness_center_health_club_gym" => some 0.00987
      | "food_sales" => some 0.01181
      | "food_service" => some 0.01181
      | "hospital_general_medical_surgical" => some 0.02381
      | "hotel" => some 0.00987
      | "k_12_school" => some 0.00675
      | "laboratory" => some 0.02381
      | "library" => some 0.00675
      | "lifestyle_center" => some 0.00846
      | "mailing_center_post_office" => some 0.00426
      | "medical_office" => some 0.01074
      | "movie_theater" => some 0.01181
      | "multifamily_housing" => some 0.00675
      | "museum" => some 0.01181
      | "non_refrigerated_warehouse" => some 0.00426
      | "office" => some 0.00758
      | "other" => some 0.02381
      | "other_education" => some 0.00846
      | "other_entertainment_public_assembly" => some 0.00987
      | "other_lodging_residential" => some 0.00758
      | "other_mall" => some 0.01074
      | "other_public_services" => some 0.00758
      | "other_recreation" => some 0.00987
      | "other_services" => some 0.01074
      | "other_technology_science" => some 0.02381
      | "outpatient_rehabilitation_physical_therapy" => some 0.01181
      | "parking" => some 0.00426
      | "performing_arts" => some 0.00846
      | "personal_services" => some 0.00574
      | "pre_school_daycare" => some 0.00675
      | "refrigerated_warehouse" => some 0.00987
      | "residence_hall_dormitory" => some 0.00758
      | "restaurant" => some 0.01181
      | "retail_store" => some 0.00758
      | "self_storage_facility" => some 0.00426
      | "senior_care_community" => some 0.01138
      | "social_meeting_hall" => some 0.00987
      | "strip_mall" => some 0.01181
      | "supermarket_grocery_store" => some 0.02381
      | "urgent_care_clinic_other_outpatient" => some 0.01181
      | "vocational_school" => some 0.00574
      | "wholesale_club_supercenter" => some 0.01138
      | "worship_facility" => some 0.00574
      | _ => none
  | .y2030_2034, u =>
      match u with
      | "adult_education" => some 0.003565528
      | "ambulatory_surgical_center" => some 0.008980612
      | "automobile_dealership" => some 0.002824097
      | "bank_branch" => some 0.004036172
      | "bowling_alley" => some 0.003103815
      | "college_university" => some 0.002099748
      | "convenience_store_without_gas_station" => some 0.003540032
      | "courthouse" => some 0.001480533
      | "data_center" => some 0.014791131
      | "distribution_center" => some 0.0009916
      | "enclosed_mall" => some 0.003983803
      | "financial_office" => some 0.003697004
      | "fitness_center_health_club_gym" => some 0.003946728
      | "food_sales" => some 0.00520888
      | "food_service" => some 0.007749414
      | "hospital_general_medical_surgical" => some 0.007335204
      | "hotel" => some 0.003850668
      | "k_12_school" => some 0.002230588
      | "laboratory" => some 0.026029868
      | "library" => some 0.002218412
      | "lifestyle_center" => some 0.00470585
      | "mailing_center_post_office" => some 0.00198044
      | "medical_office" => some 0.002912778
      | "movie_theater" => some 0.005395268
      | "multifamily_housing" => some 0.00334664
      | "museum" => some 0.0053958
      | "non_refrigerated_warehouse" => some 0.000883187
      | "office" => some 0.002690852
      | "other" => some 0.008505075
      | "other_education" => some 0.002934006
      | "other_entertainment_public_assembly" => some 0.002956738
      | "other_lodging_residential" => some 0.001901982
      | "other_mall" => some 0.001928226
      | "other_public_services" => some 0.003808033
      | "other_recreation" => some 0.00447957
      | "other_services" => some 0.001823381
      | "other_technology_science" => some 0.010446456
      | "outpatient_rehabilitation_physical_therapy" => some 0.006018323
      | "parking" => some 0.000214421
      | "performing_arts" => some 0.002472539
      | "personal_services" => some 0.004843037
      | "pre_school_daycare" => some 0.002362874
      | "refrigerated_warehouse" => some 0.002852131
      | "residence_hall_dormitory" => some 0.002464089
      | "restaurant" => some 0.004038374
      | "retail_store" => some 0.00210449
      | "self_storage_facility" => some 0.00061183
      | "senior_care_community" => some 0.004410123
      | "social_meeting_hall" => some 0.003833108
      | "strip_mall" => some 0.001361842
      | "supermarket_grocery_store" => some 0.00675519
      | "urgent_care_clinic_other_outpatient" => some 0.05772375
      | "vocational_school" => some 0.004613122
      | "wholesale_club_supercenter" => some 0.004264962
      | "worship_facility" => some 0.001230602
      | _ => none

/-- Embedding of `Decimal(str(x or 0))` on an `Optional[float]` energy
argument: `None` becomes 0, a number is kept (0 stays 0). -/
def pyOrZero (x : Option ℚ) : ℚ :=
  match x with
  | none => 0
  | some v => v

/-- `calculate_ghg_emissions` from `lib/calculations.py`. -/
def calculate_ghg_emissions (electricity_kwh natural_gas_kbtu fuel_oil_kbtu steam_kbtu : Option ℚ)
    (period : Period) : ℚ :=
  let coeffs := CARBON_COEFFICIENTS period
  quantize2 (pyOrZero electricity_kwh * coeffs.electricity +
    pyOrZero natural_gas_kbtu * coeffs.natural_gas +
    pyOrZero fuel_oil_kbtu * coeffs.fuel_oil +
    pyOrZero steam_kbtu * coeffs.steam)

/-- `calculate_emissions_limit` from `lib/calculations.py`: the use-type
dict is embedded as an association list in insertion order; entries with
`sqft <= 0` (which subsumes the falsiness test `not sqft`) and use types
without an emissions factor contribute nothing. -/
def calculate_emissions_limit (use_type_sqft : List (String × ℚ)) (period : Period) : ℚ :=
  quantize2 (use_type_sqft.foldl
    (fun (limit : ℚ) (kv : String × ℚ) =>
      if kv.2 ≤ 0 then limit
      else
        match EMISSIONS_FACTORS period kv.1 with
        | none => limit
        | some f => limit + kv.2 * f)
    (0 : ℚ))

/-- The dict `calculate_ll97_penalty` returns: six per-period fields,
each `Optional`. -/
structure PenaltyResult where
  ghg_emissions_2024_2029 : Option ℚ
  emissions_limit_2024_2029 : Option ℚ
  penalty_2024_2029 : Option ℚ
  ghg_emissions_2030_2034 : Option ℚ
  emissions_limit_2030_2034 : Option ℚ
  penalty_2030_2034 : Option ℚ
deriving DecidableEq, Repr

/-- Embedding of one disjunct `x and x > 0` of the `has_energy_data`
check: truthy (present, nonzero) and positive, which is just present and
positive. -/
def energyPositive (x : Option ℚ) : Bool :=
  match x with
  | none => false
  | some v => decide (0 < v)

/-- The `has_energy_data = any([...])` guard of `calculate_ll97_penalty`. -/
def has_energy_data (electricity_kwh natural_gas_kbtu fuel_oil_kbtu steam_kbtu : Option ℚ) : Bool :=
  energyPositive electricity_kwh || energyPositive natural_gas_kbtu ||
    energyPositive fuel_oil_kbtu || energyPositive steam_kbtu

/-- `calculate_ll97_penalty` from `lib/calculations.py`. -/
def calculate_ll97_penalty (electricity_kwh natural_gas_kbtu fuel_oil_kbtu steam_kbtu : Option ℚ)
    (use_type_sqft : List (String × ℚ)) : PenaltyResult :=
  if has_energy_data electricity_kwh natural_gas_kbtu fuel_oil_kbtu steam_kbtu then
    let ghg24 := calculate_ghg_emissions electricity_kwh natural_gas_kbtu fuel_oil_kbtu
      steam_kbtu .y2024_2029
    let lim24 := calculate_emissions_limit use_type_sqft .y2024_2029
    let pen24 := quantize2 (max (ghg24 - lim24) 0 * 268)
    let ghg30 := calculate_ghg_emissions electricity_kwh natural_gas_kbtu fuel_oil_kbtu
      steam_kbtu .y2030_2034
    let lim30 := calculate_emissions_limit use_type_sqft .y2030_2034
    let pen30 := quantize2 (max (ghg30 - lim30) 0 * 268)
    { ghg_emissions_2024_2029 := some ghg24
      emissions_limit_2024_2029 := some lim24
      penalty_2024_2029 := some pen24
      ghg_emissions_2030_2034 := some ghg30
      emissions_limit_2030_2034 := some lim30
      penalty_2030_2034 := some pen30 }
  else
    { ghg_emissions_2024_2029 := none
      emissions_limit_2024_2029 := none
      penalty_2024_2029 := none
      ghg_emissions_2030_2034 := none
      emissions_limit_2030_2034 := none
      penalty_2030_2034 := none }

/-!
Validators (`lib/validators.py`).  Python strings are embedded as
`List Char`, restricted to ASCII; `str.isdigit` is embedded as
`Char.isDigit` under that restriction.
-/

/-- Numeric value of a digit character: embedding of `int(c)` for a
single digit `c` (`'0'.toNat = 48`). -/
def digitVal (c : Char) : ℕ :=
  c.toNat - 48

/-- `validate_bbl` from `lib/validators.py`: `not bbl or len(bbl) != 10`,
then `not bbl.isdigit()`, then `borough < 1 or borough > 5` each return
`False`; otherwise `True`. -/
def validate_bbl (bbl : List Char) : Bool :=
  if bbl = [] ∨ bbl.length ≠ 10 then false
  else if ¬ bbl.all Char.isDigit then false
  else if digitVal bbl.headI < 1 ∨ digitVal bbl.headI > 5 then false
  else true

/-- `bbl_from_dashed` from `lib/validators.py`: `dashed.replace("-", "")`
removes every dash. -/
def bbl_from_dashed (dashed : List Char) : List Char :=
  dashed.filter (fun c => c ≠ '-')

/-- The three answers of `detect_input_type`. -/
inductive InputKind where
  | bbl
  | dashed_bbl
  | address
deriving DecidableEq, Repr

/-- The regex `^\d-\d{5}-\d{4}$` of `detect_input_type`, written out:
twelve characters, digits and the two dashes in fixed positions. -/
def isDashedShape : List Char → Bool
  | [d0, h1, d1, d2, d3, d4, d5, h2, d6, d7, d8, d9] =>
      d0.isDigit && h1 = '-' && d1.isDigit && d2.isDigit && d3.isDigit &&
        d4.isDigit && d5.isDigit && h2 = '-' && d6.isDigit && d7.isDigit &&
        d8.isDigit && d9.isDigit
  | _ => false

/-- Embedding of `str.strip()`: drop whitespace from both ends. -/
def pyStrip (l : List Char) : List Char :=
  ((l.dropWhile Char.isWhitespace).reverse.dropWhile Char.isWhitespace).reverse

/-- `detect_input_type` from `lib/validators.py`, applied to the already
stripped input (the function strips its argument itself; stripping is
idempotent, so the orchestration below strips once). -/
def detect_input_type (stripped : List Char) : InputKind :=
  if isDashedShape stripped then .dashed_bbl
  else if stripped.length = 10 ∧ stripped.all Char.isDigit ∧
      stripped.headI ∈ ['1', '2', '3', '4', '5'] then .bbl
  else .address

/-- `normalize_input` from `lib/validators.py`. -/
def normalize_input (user_input : List Char) : InputKind × List Char :=
  let stripped := pyStrip user_input
  match detect_input_type stripped with
  | .dashed_bbl =>
      let normalized := bbl_from_dashed stripped
      if ¬ validate_bbl normalized then (.address, stripped)
      else (.dashed_bbl, normalized)
  | .bbl => (.bbl, stripped)
  | .address => (.address, stripped)

/-!
Audit retrieval (`_query_ll87` in `lib/waterfall.py`).  The table
`ll87_raw` is embedded as a list of rows; the SQL
`SELECT DISTINCT ON (bbl) ... WHERE bbl = %s ORDER BY bbl,
CASE WHEN reporting_period = '2019-2024' THEN 1 ELSE 2 END,
audit_template_id DESC` is embedded as a fold selecting the first row
of that ordering among the rows matching the key.
-/

/-- One row of the `ll87_raw` table (`raw_data` is an opaque payload,
represented by a tag). -/
structure AuditRow where
  bbl : String
  audit_template_id : ℤ
  reporting_period : String
  raw_data : String
deriving DecidableEq, Repr

/-- The `CASE WHEN reporting_period = '2019-2024' THEN 1 ELSE 2 END`
sort key. -/
def periodRank (r : AuditRow) : ℕ :=
  if r.reporting_period = "2019-2024" then 1 else 2

/-- Row `r1` sorts strictly before row `r2` in the query's `ORDER BY`:
lower period rank first, then higher `audit_template_id`. -/
def auditBefore (r1 r2 : AuditRow) : Prop :=
  periodRank r1 < periodRank r2 ∨
    (periodRank r1 = periodRank r2 ∧ r2.audit_template_id < r1.audit_template_id)

instance (r1 r2 : AuditRow) : Decidable (auditBefore r1 r2) := by
  unfold auditBefore
  infer_instance

/-- One step of the selection fold: keep the row that sorts first,
the earlier row on a tie (the SQL leaves tie order unspecified). -/
def pickBetter (best : Option AuditRow) (r : AuditRow) : Option AuditRow :=
  match best with
  | none => some r
  | some b => if auditBefore r b then some r else some b

/-- The row `fetchone()` returns for `_query_ll87`: the first row of the
ordering among rows whose `bbl` matches, `none` when there is no such
row. -/
def selectAudit (rows : List AuditRow) (bbl : String) : Option AuditRow :=
  (rows.filter (fun r => r.bbl = bbl)).foldl pickBetter none

/-!
Arithmetic lemmas about the rounding model.
-/

/-- Rounding an integer changes nothing. -/
theorem roundHalfUp_intCast (z : ℤ) : roundHalfUp (z : ℚ) = z := by
  rw [roundHalfUp_def]
  split_ifs with h
  · rw [add_comm, Int.floor_add_int]
    norm_num
  · rw [show -(z : ℚ) + 1 / 2 = (-z : ℤ) + 1 / 2 by push_cast; ring,
      add_comm, Int.floor_add_int]
    norm_num

/-- A value already quantized to 2 fractional digits is fixed by
`quantize2`. -/
theorem quantize2_int_div (z : ℤ) : quantize2 ((z : ℚ) / 100) = (z : ℚ) / 100 := by
  rw [quantize2, div_mul_cancel₀ _ (by norm_num : (100 : ℚ) ≠ 0), roundHalfUp_intCast]

/-- `roundHalfUp` is monotone. -/
theorem roundHalfUp_mono {q1 q2 : ℚ} (h : q1 ≤ q2) : roundHalfUp q1 ≤ roundHalfUp q2 := by
  rw [roundHalfUp_def, roundHalfUp_def]
  split_ifs with h1 h2 h2
  · exact Int.floor_le_floor (by linarith)
  · linarith
  · have hl : (0 : ℤ) ≤ ⌊q2 + 1 / 2⌋ := Int.le_floor.mpr (by push_cast; linarith)
    have hr : (0 : ℤ) ≤ ⌊-q1 + 1 / 2⌋ := Int.le_floor.mpr (by push_cast; linarith)
    omega
  · have : ⌊-q2 + 1 / 2⌋ ≤ ⌊-q1 + 1 / 2⌋ := Int.floor_le_floor (by linarith)
    omega

/-- `quantize2` is monotone. -/
theorem quantize2_mono {q1 q2 : ℚ} (h : q1 ≤ q2) : quantize2 q1 ≤ quantize2 q2 := by
  unfold quantize2
  have : roundHalfUp (q1 * 100) ≤ roundHalfUp (q2 * 100) :=
    roundHalfUp_mono (by linarith)
  have : (roundHalfUp (q1 * 100) : ℚ) ≤ (roundHalfUp (q2 * 100) : ℚ) := by
    exact_mod_cast this
  linarith

/-!
Claim C3: all six result fields present or all six absent.
-/

/-- All six fields of the result dict are `None`. -/
def allSixAbsent (r : PenaltyResult) : Prop :=
  r.ghg_emissions_2024_2029 = none ∧ r.emissions_limit_2024_2029 = none ∧
    r.penalty_2024_2029 = none ∧ r.ghg_emissions_2030_2034 = none ∧
    r.emissions_limit_2030_2034 = none ∧ r.penalty_2030_2034 = none

/-- All six fields of the result dict carry a value. -/
def allSixPresent (r : PenaltyResult) : Prop :=
  r.ghg_emissions_2024_2029 ≠ none ∧ r.emissions_limit_2024_2029 ≠ none ∧
    r.penalty_2024_2029 ≠ none ∧ r.ghg_emissions_2030_2034 ≠ none ∧
    r.emissions_limit_2030_2034 ≠ none ∧ r.penalty_2030_2034 ≠ none

/-- An energy quantity that is absent (`None`) or not positive. -/
def energyAbsentOrNonpos (x : Option ℚ) : Prop :=
  ∀ v, x = some v → v ≤ 0

theorem energyPositive_eq_false (x : Option ℚ) :
    energyPositive x = false ↔ energyAbsentOrNonpos x := by
  cases x <;> simp [energyPositive, energyAbsentOrNonpos, not_lt]

theorem has_energy_data_eq_false (e g o s : Option ℚ) :
    has_energy_data e g o s = false ↔
      (energyAbsentOrNonpos e ∧ energyAbsentOrNonpos g ∧
        energyAbsentOrNonpos o ∧ energyAbsentOrNonpos s) := by
  simp only [has_energy_data, Bool.or_eq_false_iff, energyPositive_eq_false]
  tauto

/-- Claim C3: for every combination of the four energy-quantity inputs
and every use-type-area input, `calculate_ll97_penalty` returns either
all six result values present or all six absent, and all six are absent
exactly when each of the four energy quantities is absent or `≤ 0`. -/
theorem penalty_all_or_nothing (e g o s : Option ℚ) (areas : List (String × ℚ)) :
    (allSixAbsent (calculate_ll97_penalty e g o s areas) ∨
      allSixPresent (calculate_ll97_penalty e g o s areas)) ∧
    (allSixAbsent (calculate_ll97_penalty e g o s areas) ↔
      (energyAbsentOrNonpos e ∧ energyAbsentOrNonpos g ∧
        energyAbsentOrNonpos o ∧ energyAbsentOrNonpos s)) := by
  rcases h : has_energy_data e g o s with hf | ht
  · constructor
    · left
      simp [calculate_ll97_penalty, h, allSixAbsent]
    · rw [← has_energy_data_eq_false, h]
      simp [calculate_ll97_penalty, h, allSixAbsent]
  · constructor
    · right
      simp [calculate_ll97_penalty, h, allSixPresent]
    · rw [← has_energy_data_eq_false, h]
      simp [calculate_ll97_penalty, h, allSixAbsent]

/-!
Claim C2: the literal scenario.  The code yields penalty 642441.56 for
2024-2029, not the 642401.56 the spec writes.
-/

/-- Claim C2 counterexample: on electricity 10,000,000 kWh, gas
5,000,000 kBtu, no oil or steam and 100,000 sqft of office space,
the 2024-2029 penalty the code computes is 642441.56, which is not the
642401.56 the claim states. -/
theorem scenario_penalty_counterexample :
    (calculate_ll97_penalty (some 10000000) (some 5000000) (some 0) (some 0)
      [("office", 100000)]).penalty_2024_2029 = some (642441.56 : ℚ) ∧
    (642441.56 : ℚ) ≠ (642401.56 : ℚ) := by
  constructor
  · with_unfolding_all rfl
  · norm_num

/-- Claim C2 as amended: the literal scenario yields, for 2024-2029,
emissions 3155.17, limit 758.00 and penalty 642,441.56 (the spec's
642,401.56 is an arithmetic slip: (3155.17 - 758.00) × 268 =
642,441.56), each quantized to 2 fractional digits, half up. -/
theorem scenario_2024_2029_values :
    (calculate_ll97_penalty (some 10000000) (some 5000000) (some 0) (some 0)
        [("office", 100000)]).ghg_emissions_2024_2029 = some (3155.17 : ℚ) ∧
    (calculate_ll97_penalty (some 10000000) (some 5000000) (some 0) (some 0)
        [("office", 100000)]).emissions_limit_2024_2029 = some (758.00 : ℚ) ∧
    (calculate_ll97_penalty (some 10000000) (some 5000000) (some 0) (some 0)
        [("office", 100000)]).penalty_2024_2029 = some (642441.56 : ℚ) := by
  refine ⟨?_, ?_, ?_⟩ <;> with_unfolding_all rfl

/-!
Claim C4: the penalty is exactly `max(emissions - limit, 0) × 268`.
-/

/-- `quantize2` written as an integer numerator over 100. -/
theorem quantize2_eq_div (q : ℚ) :
    quantize2 q = ((roundHalfUp (q * 100) : ℤ) : ℚ) / 100 := rfl

/-- Quantizing `max(g - l, 0) × 268` changes nothing when `g` and `l`
are already quantized to 2 fractional digits. -/
theorem quantize2_max_mul (zg zl : ℤ) :
    quantize2 (max ((zg : ℚ) / 100 - (zl : ℚ) / 100) 0 * 268) =
      max ((zg : ℚ) / 100 - (zl : ℚ) / 100) 0 * 268 := by
  rcases le_total zg zl with h | h
  · have hle : (zg : ℚ) / 100 - (zl : ℚ) / 100 ≤ 0 := by
      have hc : (zg : ℚ) ≤ (zl : ℚ) := by exact_mod_cast h
      linarith
    rw [max_eq_right hle, zero_mul]
    simpa using quantize2_int_div 0
  · have hle : 0 ≤ (zg : ℚ) / 100 - (zl : ℚ) / 100 := by
      have hc : (zl : ℚ) ≤ (zg : ℚ) := by exact_mod_cast h
      linarith
    rw [max_eq_left hle]
    have hrw : ((zg : ℚ) / 100 - (zl : ℚ) / 100) * 268 =
        (((zg - zl) * 268 : ℤ) : ℚ) / 100 := by
      push_cast
      ring
    rw [hrw, quantize2_int_div]

/-- Claim C4: whenever `calculate_ll97_penalty` produces a result, each
period's penalty equals `max(emissions - limit, 0) × 268` exactly, and
is therefore never negative. -/
theorem ll97_penalty_formula (e g o s : Option ℚ) (areas : List (String × ℚ))
    (h : has_energy_data e g o s = true) :
    (calculate_ll97_penalty e g o s areas).penalty_2024_2029 =
      some (max (calculate_ghg_emissions e g o s Period.y2024_2029 -
        calculate_emissions_limit areas Period.y2024_2029) 0 * 268) ∧
    (calculate_ll97_penalty e g o s areas).penalty_2030_2034 =
      some (max (calculate_ghg_emissions e g o s Period.y2030_2034 -
        calculate_emissions_limit areas Period.y2030_2034) 0 * 268) ∧
    (∀ p, (calculate_ll97_penalty e g o s areas).penalty_2024_2029 = some p → 0 ≤ p) ∧
    (∀ p, (calculate_ll97_penalty e g o s areas).penalty_2030_2034 = some p → 0 ≤ p) := by
  obtain ⟨zg24, hzg24⟩ : ∃ z : ℤ,
      calculate_ghg_emissions e g o s Period.y2024_2029 = (z : ℚ) / 100 := ⟨_, rfl⟩
  obtain ⟨zl24, hzl24⟩ : ∃ z : ℤ,
      calculate_emissions_limit areas Period.y2024_2029 = (z : ℚ) / 100 := ⟨_, rfl⟩
  obtain ⟨zg30, hzg30⟩ : ∃ z : ℤ,
      calculate_ghg_emissions e g o s Period.y2030_2034 = (z : ℚ) / 100 := ⟨_, rfl⟩
  obtain ⟨zl30, hzl30⟩ : ∃ z : ℤ,
      calculate_emissions_limit areas Period.y2030_2034 = (z : ℚ) / 100 := ⟨_, rfl⟩
  have h24 : (calculate_ll97_penalty e g o s areas).penalty_2024_2029 =
      some (max (calculate_ghg_emissions e g o s Period.y2024_2029 -
        calculate_emissions_limit areas Period.y2024_2029) 0 * 268) := by
    simp only [calculate_ll97_penalty, h, if_true]
    rw [hzg24, hzl24, quantize2_max_mul]
  have h30 : (calculate_ll97_penalty e g o s areas).penalty_2030_2034 =
      some (max (calculate_ghg_emissions e g o s Period.y2030_2034 -
        calculate_emissions_limit areas Period.y2030_2034) 0 * 268) := by
    simp only [calculate_ll97_penalty, h, if_true]
    rw [hzg30, hzl30, quantize2_max_mul]
  have hmn : ∀ a b : ℚ, 0 ≤ max (a - b) 0 * 268 := fun a b =>
    mul_nonneg (le_max_right _ 0) (by norm_num)
  refine ⟨h24, h30, ?_, ?_⟩
  · intro p hp
    rw [h24] at hp
    obtain rfl : _ = p := Option.some.inj hp
    exact hmn _ _
  · intro p hp
    rw [h30] at hp
    obtain rfl : _ = p := Option.some.inj hp
    exact hmn _ _

/-- Witness for C4: the formula theorem applied at the literal scenario
of §8 of the spec. -/
theorem ll97_penalty_formula_witness :
    (calculate_ll97_penalty (some 10000000) (some 5000000) (some 0) (some 0)
        [("office", 100000)]).penalty_2024_2029 =
      some (max (calculate_ghg_emissions (some 10000000) (some 5000000) (some 0) (some 0)
          Period.y2024_2029 -
        calculate_emissions_limit [("office", 100000)] Period.y2024_2029) 0 * 268) ∧
    (calculate_ll97_penalty (some 10000000) (some 5000000) (some 0) (some 0)
        [("office", 100000)]).penalty_2030_2034 =
      some (max (calculate_ghg_emissions (some 10000000) (some 5000000) (some 0) (some 0)
          Period.y2030_2034 -
        calculate_emissions_limit [("office", 100000)] Period.y2030_2034) 0 * 268) ∧
    (∀ p, (calculate_ll97_penalty (some 10000000) (some 5000000) (some 0) (some 0)
        [("office", 100000)]).penalty_2024_2029 = some p → 0 ≤ p) ∧
    (∀ p, (calculate_ll97_penalty (some 10000000) (some 5000000) (some 0) (some 0)
        [("office", 100000)]).penalty_2030_2034 = some p → 0 ≤ p) :=
  ll97_penalty_formula (some 10000000) (some 5000000) (some 0) (some 0)
    [("office", 100000)] (by with_unfolding_all rfl)

/-!
Claim C6: the penalty is monotone in each energy quantity.
-/

/-- The four energy-quantity arguments of `calculate_ll97_penalty`. -/
inductive Fuel where
  | electricity
  | natural_gas
  | fuel_oil
  | steam
deriving DecidableEq, Repr

/-- The four `Optional[float]` energy arguments, bundled. -/
structure EnergyArgs where
  electricity_kwh : Option ℚ
  natural_gas_kbtu : Option ℚ
  fuel_oil_kbtu : Option ℚ
  steam_kbtu : Option ℚ
deriving DecidableEq, Repr

/-- Replace the selected energy quantity, holding the other three fixed. -/
def setFuel (E : EnergyArgs) (f : Fuel) (q : ℚ) : EnergyArgs :=
  match f with
  | .electricity => { E with electricity_kwh := some q }
  | .natural_gas => { E with natural_gas_kbtu := some q }
  | .fuel_oil => { E with fuel_oil_kbtu := some q }
  | .steam => { E with steam_kbtu := some q }

/-- `calculate_ll97_penalty` on bundled energy arguments. -/
def penaltyArgs (E : EnergyArgs) (areas : List (String × ℚ)) : PenaltyResult :=
  calculate_ll97_penalty E.electricity_kwh E.natural_gas_kbtu E.fuel_oil_kbtu
    E.steam_kbtu areas

/-- `calculate_ghg_emissions` on bundled energy arguments. -/
def ghgArgs (E : EnergyArgs) (p : Period) : ℚ :=
  calculate_ghg_emissions E.electricity_kwh E.natural_gas_kbtu E.fuel_oil_kbtu
    E.steam_kbtu p

/-- Emissions are monotone in each single energy quantity. -/
theorem ghgArgs_mono (f : Fuel) (E : EnergyArgs) {q1 q2 : ℚ} (h : q1 ≤ q2)
    (p : Period) : ghgArgs (setFuel E f q1) p ≤ ghgArgs (setFuel E f q2) p := by
  unfold ghgArgs calculate_ghg_emissions
  apply quantize2_mono
  cases f <;> cases p <;>
    simp only [setFuel, pyOrZero, CARBON_COEFFICIENTS] <;>
    linarith

/-- The penalty expression is monotone in emissions, the limit fixed. -/
theorem penalty_expr_mono {g1 g2 l : ℚ} (h : g1 ≤ g2) :
    quantize2 (max (g1 - l) 0 * 268) ≤ quantize2 (max (g2 - l) 0 * 268) :=
  quantize2_mono
    (mul_le_mul_of_nonneg_right (max_le_max (sub_le_sub_right h l) le_rfl)
      (by norm_num))

/-- Claim C6: for every fixed assignment of the other three energy
quantities and of the use-type areas, each period's penalty returned by
`calculate_ll97_penalty` is monotonically non-decreasing as any single
energy quantity increases. -/
theorem ll97_penalty_monotone (f : Fuel) (E : EnergyArgs)
    (areas : List (String × ℚ)) (q1 q2 : ℚ) (h : q1 ≤ q2) :
    (∀ p1 p2, (penaltyArgs (setFuel E f q1) areas).penalty_2024_2029 = some p1 →
      (penaltyArgs (setFuel E f q2) areas).penalty_2024_2029 = some p2 → p1 ≤ p2) ∧
    (∀ p1 p2, (penaltyArgs (setFuel E f q1) areas).penalty_2030_2034 = some p1 →
      (penaltyArgs (setFuel E f q2) areas).penalty_2030_2034 = some p2 → p1 ≤ p2) := by
  have key : ∀ (p : Period) (pen : PenaltyResult → Option ℚ),
      (∀ (E' : EnergyArgs), pen (penaltyArgs E' areas) =
        (if has_energy_data E'.electricity_kwh E'.natural_gas_kbtu E'.fuel_oil_kbtu
            E'.steam_kbtu = true then
          some (quantize2 (max (ghgArgs E' p - calculate_emissions_limit areas p) 0 * 268))
        else none)) →
      ∀ p1 p2, pen (penaltyArgs (setFuel E f q1) areas) = some p1 →
        pen (penaltyArgs (setFuel E f q2) areas) = some p2 → p1 ≤ p2 := by
    intro p pen hpen p1 p2 h1 h2
    rw [hpen] at h1 h2
    rcases hE1 : has_energy_data (setFuel E f q1).electricity_kwh
        (setFuel E f q1).natural_gas_kbtu (setFuel E f q1).fuel_oil_kbtu
        (setFuel E f q1).steam_kbtu with hb | hb
    · rw [hE1] at h1
      simp at h1
    rcases hE2 : has_energy_data (setFuel E f q2).electricity_kwh
        (setFuel E f q2).natural_gas_kbtu (setFuel E f q2).fuel_oil_kbtu
        (setFuel E f q2).steam_kbtu with hb2 | hb2
    · rw [hE2] at h2
      simp at h2
    rw [hE1, if_pos rfl] at h1
    rw [hE2, if_pos rfl] at h2
    obtain rfl : _ = p1 := Option.some.inj h1
    obtain rfl : _ = p2 := Option.some.inj h2
    exact penalty_expr_mono (ghgArgs_mono f E h p)
  constructor
  · exact key Period.y2024_2029 PenaltyResult.penalty_2024_2029
      (fun E' => by
        rcases hE : has_energy_data E'.electricity_kwh E'.natural_gas_kbtu
            E'.fuel_oil_kbtu E'.steam_kbtu with hb | hb <;>
          simp [penaltyArgs, calculate_ll97_penalty, hE, ghgArgs])
  · exact key Period.y2030_2034 PenaltyResult.penalty_2030_2034
      (fun E' => by
        rcases hE : has_energy_data E'.electricity_kwh E'.natural_gas_kbtu
            E'.fuel_oil_kbtu E'.steam_kbtu with hb | hb <;>
          simp [penaltyArgs, calculate_ll97_penalty, hE, ghgArgs])

/-- Witness for C6: monotonicity applied with electricity increased
from 10,000,000 to 20,000,000 kWh, the other inputs those of the
literal scenario. -/
theorem ll97_penalty_monotone_witness :
    (∀ p1 p2, (penaltyArgs (setFuel ⟨none, some 5000000, some 0, some 0⟩
        Fuel.electricity 10000000) [("office", 100000)]).penalty_2024_2029 = some p1 →
      (penaltyArgs (setFuel ⟨none, some 5000000, some 0, some 0⟩
        Fuel.electricity 20000000) [("office", 100000)]).penalty_2024_2029 = some p2 →
      p1 ≤ p2) ∧
    (∀ p1 p2, (penaltyArgs (setFuel ⟨none, some 5000000, some 0, some 0⟩
        Fuel.electricity 10000000) [("office", 100000)]).penalty_2030_2034 = some p1 →
      (penaltyArgs (setFuel ⟨none, some 5000000, some 0, some 0⟩
        Fuel.electricity 20000000) [("office", 100000)]).penalty_2030_2034 = some p2 →
      p1 ≤ p2) :=
  ll97_penalty_monotone Fuel.electricity ⟨none, some 5000000, some 0, some 0⟩
    [("office", 100000)] 10000000 20000000 (by norm_num)

/-!
Claim C5: `validate_bbl` accepts exactly the 10-digit strings whose
first digit is 1..5.
-/

/-- Claim C5: `validate_bbl` returns `True` if and only if the input is
exactly 10 digits with first digit of value 1..5; it fails on every
other string. -/
theorem validate_bbl_spec (l : List Char) :
    validate_bbl l = true ↔
      (l.length = 10 ∧ (∀ c ∈ l, c.isDigit = true) ∧
        ∀ c, l.head? = some c → 1 ≤ digitVal c ∧ digitVal c ≤ 5) := by
  cases l with
  | nil => simp [validate_bbl]
  | cons c t =>
      have hh : (c :: t).headI = c := rfl
      by_cases hlen : (c :: t).length = 10
      · by_cases hdig : (c :: t).all Char.isDigit = true
        · by_cases hbor : digitVal c < 1 ∨ digitVal c > 5
          · have hv : validate_bbl (c :: t) = false := by
              unfold validate_bbl
              rw [if_neg (by simp [hlen]), if_neg (by simp [hdig]), hh, if_pos hbor]
            rw [hv]
            refine iff_of_false (by simp) ?_
            rintro ⟨-, -, hb⟩
            obtain ⟨hb1, hb5⟩ := hb c rfl
            omega
          · have hv : validate_bbl (c :: t) = true := by
              unfold validate_bbl
              rw [if_neg (by simp [hlen]), if_neg (by simp [hdig]), hh, if_neg hbor]
            rw [hv]
            push_neg at hbor
            refine iff_of_true rfl
              ⟨hlen, fun x hx => List.all_eq_true.mp hdig x hx, ?_⟩
            intro x hx
            obtain rfl : c = x := by simpa using hx
            omega
        · have hv : validate_bbl (c :: t) = false := by
            unfold validate_bbl
            rw [if_neg (by simp [hlen]), if_pos hdig]
          rw [hv]
          refine iff_of_false (by simp) ?_
          rintro ⟨-, hd, -⟩
          exact hdig (List.all_eq_true.mpr fun x hx => hd x hx)
      · have hv : validate_bbl (c :: t) = false := by
          unfold validate_bbl
          rw [if_pos (Or.inr hlen)]
        rw [hv]
        refine iff_of_false (by simp) ?_
        rintro ⟨hl, -, -⟩
        exact hlen hl

/-!
Claim C7: audit-row selection prefers the newer reporting period, then
the highest audit id.
-/

/-- No row sorts strictly before itself. -/
theorem auditBefore_irrefl (r : AuditRow) : ¬ auditBefore r r := by
  unfold auditBefore
  push_neg
  exact ⟨le_refl _, fun _ => le_refl _⟩

/-- The query ordering is transitive. -/
theorem auditBefore_trans {a b c : AuditRow} (h1 : auditBefore a b)
    (h2 : auditBefore b c) : auditBefore a c := by
  unfold auditBefore at h1 h2 ⊢
  rcases h1 with h | ⟨he, hi⟩ <;> rcases h2 with h2 | ⟨he2, hi2⟩
  · left; omega
  · left; omega
  · left; omega
  · right; exact ⟨by omega, by omega⟩

/-- Sorting no earlier is transitive. -/
theorem notAuditBefore_trans {a b c : AuditRow} (h1 : ¬ auditBefore a b)
    (h2 : ¬ auditBefore b c) : ¬ auditBefore a c := by
  unfold auditBefore at h1 h2 ⊢
  push_neg at h1 h2
  obtain ⟨h1a, h1b⟩ := h1
  obtain ⟨h2a, h2b⟩ := h2
  push_neg
  refine ⟨by omega, fun heq => ?_⟩
  have hab : periodRank a = periodRank b := by omega
  have hbc : periodRank b = periodRank c := by omega
  have hx := h1b hab
  have hy := h2b hbc
  omega

/-- One fold step never discards a candidate entirely. -/
theorem pickBetter_ne_none (acc : Option AuditRow) (r : AuditRow) :
    pickBetter acc r ≠ none := by
  cases acc with
  | none => simp [pickBetter]
  | some b =>
      simp only [pickBetter]
      split <;> simp

/-- The fold yields nothing only when it started with nothing and saw
no rows. -/
theorem foldl_pickBetter_eq_none (l : List AuditRow) (acc : Option AuditRow) :
    l.foldl pickBetter acc = none ↔ acc = none ∧ l = [] := by
  induction l generalizing acc with
  | nil => simp
  | cons a l ih =>
      rw [List.foldl_cons, ih]
      simp [pickBetter_ne_none acc a]

/-- The fold returns a candidate it saw, and no candidate it saw sorts
strictly before the returned one. -/
theorem foldl_pickBetter_spec (l : List AuditRow) :
    ∀ (acc : Option AuditRow) (r : AuditRow), l.foldl pickBetter acc = some r →
      (acc = some r ∨ r ∈ l) ∧ (∀ b, acc = some b → ¬ auditBefore b r) ∧
        (∀ x ∈ l, ¬ auditBefore x r) := by
  induction l with
  | nil =>
      intro acc r h
      simp only [List.foldl_nil] at h
      refine ⟨Or.inl h, ?_, ?_⟩
      · intro b hb
        rw [h] at hb
        obtain rfl := Option.some.inj hb
        exact auditBefore_irrefl r
      · intro x hx
        exact absurd hx (List.not_mem_nil x)
  | cons a l ih =>
      intro acc r h
      rw [List.foldl_cons] at h
      obtain ⟨hmem, hacc, hl⟩ := ih (pickBetter acc a) r h
      cases acc with
      | none =>
          have ha : pickBetter none a = some a := rfl
          rw [ha] at hmem hacc
          refine ⟨?_, ?_, ?_⟩
          · rcases hmem with h' | h'
            · obtain rfl := Option.some.inj h'
              exact Or.inr (List.mem_cons_self _ _)
            · exact Or.inr (List.mem_cons_of_mem a h')
          · intro b hb
            cases hb
          · intro x hx
            rcases List.mem_cons.mp hx with rfl | hx'
            · exact hacc x rfl
            · exact hl x hx'
      | some b0 =>
          by_cases hab : auditBefore a b0
          · have ha : pickBetter (some b0) a = some a := by
              simp [pickBetter, hab]
            rw [ha] at hmem hacc
            have hnar : ¬ auditBefore a r := hacc a rfl
            refine ⟨?_, ?_, ?_⟩
            · rcases hmem with h' | h'
              · obtain rfl := Option.some.inj h'
                exact Or.inr (List.mem_cons_self _ _)
              · exact Or.inr (List.mem_cons_of_mem a h')
            · intro b hb
              obtain rfl := Option.some.inj hb
              intro hbr
              exact hnar (auditBefore_trans hab hbr)
            · intro x hx
              rcases List.mem_cons.mp hx with rfl | hx'
              · exact hnar
              · exact hl x hx'
          · have ha : pickBetter (some b0) a = some b0 := by
              simp [pickBetter, hab]
            rw [ha] at hmem hacc
            have hnbr : ¬ auditBefore b0 r := hacc b0 rfl
            refine ⟨?_, ?_, ?_⟩
            · rcases hmem with h' | h'
              · exact Or.inl h'
              · exact Or.inr (List.mem_cons_of_mem a h')
            · intro b hb
              obtain rfl := Option.some.inj hb
              exact hnbr
            · intro x hx
              rcases List.mem_cons.mp hx with rfl | hx'
              · exact notAuditBefore_trans hab hnbr
              · exact hl x hx'

/-- Claim C7: when audit rows exist for a key, exactly one is selected:
a row of the newer reporting-period dataset is preferred over any row of
the older dataset, within the winning order the highest audit id wins,
a newer-period row with a lower audit id beats an older-period row with
a higher audit id, and `none` is returned only when the key has no rows.
-/
theorem ll87_selection_spec (rows : List AuditRow) (bbl : String) :
    (selectAudit rows bbl = none ↔ rows.filter (fun r => r.bbl = bbl) = []) ∧
    (∀ r, selectAudit rows bbl = some r →
      r ∈ rows.filter (fun r => r.bbl = bbl) ∧
        ∀ x ∈ rows.filter (fun r => r.bbl = bbl), ¬ auditBefore x r) ∧
    (∀ r1 r2, r1.bbl = bbl → r2.bbl = bbl →
      r1.reporting_period = "2019-2024" → r2.reporting_period ≠ "2019-2024" →
      r1.audit_template_id < r2.audit_template_id →
      selectAudit [r2, r1] bbl = some r1) := by
  refine ⟨?_, ?_, ?_⟩
  · rw [selectAudit, foldl_pickBetter_eq_none]
    simp
  · intro r h
    obtain ⟨hmem, -, hl⟩ := foldl_pickBetter_spec _ none r h
    refine ⟨?_, hl⟩
    rcases hmem with h' | h'
    · cases h'
    · exact h'
  · intro r1 r2 hb1 hb2 hp1 hp2 hid
    have hfil : [r2, r1].filter (fun r => r.bbl = bbl) = [r2, r1] := by
      simp [hb1, hb2]
    have hbef : auditBefore r1 r2 := by
      unfold auditBefore periodRank
      rw [hp1, if_pos rfl, if_neg hp2]
      left
      norm_num
    rw [selectAudit, hfil]
    simp only [List.foldl_cons, List.foldl_nil]
    have h1 : pickBetter none r2 = some r2 := rfl
    rw [h1]
    simp [pickBetter, hbef]

/-!
Python dict embedding for the orchestrator (`lib/waterfall.py`,
`lib/storage.py`).  A dict is an association list in insertion order
with distinct keys maintained by `setKey`; values carry the payload
shapes the pipeline actually stores.
-/

/-- A Python value as stored in the building record: string, number
(floats are embedded as exact rationals), boolean, `None`, or a nested
dict (the stashed raw query payloads). -/
inductive Val where
  | str (s : String)
  | num (q : ℚ)
  | bool (b : Bool)
  | null
  | dict (entries : List (String × Val))
deriving Repr

/-- A Python dict embedded as an association list in insertion order. -/
abbrev PyDict := List (String × Val)

/-- Embedding of `d.get(k)` as an `Option`. -/
def getKey : PyDict → String → Option Val
  | [], _ => none
  | (k0, v0) :: rest, k => if k0 = k then some v0 else getKey rest k

/-- Embedding of `d[k] = v`: replace in place, or append a new key. -/
def setKey : PyDict → String → Val → PyDict
  | [], k, v => [(k, v)]
  | (k0, v0) :: rest, k, v =>
      if k0 = k then (k0, v) :: rest else (k0, v0) :: setKey rest k v

/-- Embedding of `r.update(d)`. -/
def dictUpdate (r d : PyDict) : PyDict :=
  d.foldl (fun acc kv => setKey acc kv.1 kv.2) r

/-- Embedding of `k in d`. -/
def hasKey (r : PyDict) (k : String) : Bool :=
  (getKey r k).isSome

/-- The keys of a dict, in order. -/
def dictKeys (r : PyDict) : List String :=
  r.map Prod.fst

/-- Python truthiness of `d.get(k)`: `None`, a missing key, `0`, the
empty string, `False` and the empty dict are falsy. -/
def truthy : Option Val → Bool
  | none => false
  | some .null => false
  | some (.str s) => !(s == "")
  | some (.num q) => !(q == 0)
  | some (.bool b) => b
  | some (.dict l) => !l.isEmpty

/-- Embedding of `d.get(k)` where a missing key behaves as `None`. -/
def getD (r : PyDict) (k : String) : Val :=
  (getKey r k).getD .null

/-- The numeric value under a key, if any. -/
def getNum (r : PyDict) (k : String) : Option ℚ :=
  match getKey r k with
  | some (.num q) => some q
  | _ => none

/-- The string content of a value (the pipeline only ever reads strings
where this is used). -/
def valAsString : Val → String
  | .str s => s
  | _ => ""

/-- `USE_TYPE_SQFT_COLUMNS` from `lib/storage.py`. -/
def USE_TYPE_SQFT_COLUMNS : List String :=
  ["adult_education_sqft",
   "ambulatory_surgical_center_sqft",
   "automobile_dealership_sqft",
   "bank_branch_sqft",
   "barracks_sqft",
   "bowling_alley_sqft",
   "college_university_sqft",
   "convention_center_sqft",
   "convenience_store_with_gas_station_sqft",
   "convenience_store_without_gas_station_sqft",
   "courthouse_sqft",
   "data_center_sqft",
   "distribution_center_sqft",
   "enclosed_mall_sqft",
   "financial_office_sqft",
   "fire_station_sqft",
   "fitness_center_health_club_gym_sqft",
   "food_sales_sqft",
   "food_service_sqft",
   "hospital_general_medical_surgical_sqft",
   "hotel_sqft",
   "hotel_gym_sqft",
   "k_12_school_sqft",
   "laboratory_sqft",
   "library_sqft",
   "lifestyle_center_sqft",
   "mailing_center_post_office_sqft",
   "medical_office_sqft",
   "mixed_use_property_sqft",
   "movie_theater_sqft",
   "multifamily_housing_sqft",
   "museum_sqft",
   "non_refrigerated_warehouse_sqft",
   "office_sqft",
   "other_sqft",
   "other_education_sqft",
   "other_entertainment_public_assembly_sqft",
   "other_lodging_residential_sqft",
   "other_mall_sqft",
   "other_public_services_sqft",
   "other_recreation_sqft",
   "other_services_sqft",
   "other_technology_science_sqft",
   "other_utility_sqft",
   "outpatient_rehabilitation_physical_therapy_sqft",
   "parking_sqft",
   "performing_arts_sqft",
   "personal_services_sqft",
   "police_station_sqft",
   "pre_school_daycare_sqft",
   "prison_incarceration_sqft",
   "refrigerated_warehouse_sqft",
   "residence_hall_dormitory_sqft",
   "residential_care_facility_sqft",
   "restaurant_sqft",
   "retail_store_sqft",
   "self_storage_facility_sqft",
   "senior_care_community_sqft",
   "social_meeting_hall_sqft",
   "strip_mall_sqft",
   "supermarket_grocery_store_sqft",
   "swimming_pool_sqft",
   "urgent_care_clinic_other_outpatient_sqft",
   "vocational_school_sqft",
   "wastewater_treatment_plant_sqft",
   "wholesale_club_supercenter_sqft",
   "worship_facility_sqft"]

/-- `extract_use_type_sqft` from `lib/calculations.py`: keep the
positive numeric use-type columns, stripping the `_sqft` suffix.  (The
LL84 client only ever stores numbers in these columns, so the embedding
reads non-numeric values as absent.) -/
def extract_use_type_sqft (building_data : PyDict) : List (String × ℚ) :=
  USE_TYPE_SQFT_COLUMNS.filterMap (fun col =>
    match getNum building_data col with
    | some q => if q ≤ 0 then none else some (col.replace "_sqft" "", q)
    | none => none)

/-!
External collaborators of the orchestrator, as oracles.  API clients
(`call_pluto_api`, `call_geosearch_api`, the LL84 queries) catch their
own exceptions and return `None` on any failure, so they are embedded as
total `Option`-valued oracles; the two direct database queries
(`_query_ll97`, `_query_ll87`) use `try/finally` with no `except`, so a
database exception propagates: they are embedded as `Except`-valued
oracles.  The narrative generator runs inside Step 5's `try` block and
may raise.
-/

/-- One row of the `ll97_covered_buildings` table, as selected by
`_query_ll97` (any column may be NULL). -/
structure Ll97Row where
  bbl : Val
  preliminary_bin : Val
  address : Val
  zip_code : Val
  cp0_article_320_2024 : Val
  cp1_article_320_2026 : Val
  cp2_article_320_2035 : Val
  cp3_article_321_onetime : Val
  cp4_city_portfolio : Val

/-- The environment of external sources a resolution run reads. -/
structure Env where
  ll97Table : String → Except String (Option Ll97Row)
  plutoApi : String → Option PyDict
  geosearchApi : String → Option PyDict
  ll84ByBbl : String → Option PyDict
  ll84ByBin : Val → Option PyDict
  ll87Table : String → Except String (List AuditRow)
  apiKeyAvailable : Bool
  narrativeGen : PyDict → Except String (List (String × String))

/-- The `', '.join(pathways) if pathways else 'None assigned'` label of
`_query_ll97`. -/
def ll97PathwayLabel (row : Ll97Row) : String :=
  let pathways :=
    (if truthy (some row.cp0_article_320_2024) then ["CP0 (2024)"] else []) ++
    (if truthy (some row.cp1_article_320_2026) then ["CP1 (2026)"] else []) ++
    (if truthy (some row.cp2_article_320_2035) then ["CP2 (2035)"] else []) ++
    (if truthy (some row.cp3_article_321_onetime) then ["CP3 (One-Time)"] else []) ++
    (if truthy (some row.cp4_city_portfolio) then ["CP4 (City Portfolio)"] else [])
  if pathways.isEmpty then "None assigned" else String.intercalate ", " pathways

/-- The dict `_query_ll97` builds from a fetched row. -/
def ll97RowToDict (row : Ll97Row) : PyDict :=
  [("bbl", row.bbl),
   ("bin", row.preliminary_bin),
   ("address", row.address),
   ("zip_code", row.zip_code),
   ("compliance_pathway", Val.str (ll97PathwayLabel row)),
   ("_ll97_query_raw", Val.dict
     [("bbl", row.bbl),
      ("preliminary_bin", row.preliminary_bin),
      ("address", row.address),
      ("zip_code", row.zip_code),
      ("cp0_article_320_2024", row.cp0_article_320_2024),
      ("cp1_article_320_2026", row.cp1_article_320_2026),
      ("cp2_article_320_2035", row.cp2_article_320_2035),
      ("cp3_article_321_onetime", row.cp3_article_321_onetime),
      ("cp4_city_portfolio", row.cp4_city_portfolio)])]

/-- `_query_ll97` from `lib/waterfall.py`: a database error propagates,
a missing row is `none`. -/
def query_ll97 (env : Env) (bbl : String) : Except String (Option PyDict) :=
  (env.ll97Table bbl).map (fun row => row.map ll97RowToDict)

/-- The dict `_query_ll87` builds from the selected row (the JSONB
payload stays opaque). -/
def ll87AuditToDict (row : AuditRow) : PyDict :=
  [("ll87_audit_id", Val.num (row.audit_template_id : ℚ)),
   ("ll87_period", Val.str row.reporting_period),
   ("ll87_raw", Val.str row.raw_data)]

/-- `_query_ll87` from `lib/waterfall.py`: a database error propagates;
otherwise the `DISTINCT ON ... ORDER BY` selection of `selectAudit`. -/
def query_ll87 (env : Env) (bbl : String) : Except String (Option PyDict) :=
  (env.ll87Table bbl).map (fun rows => (selectAudit rows bbl).map ll87AuditToDict)

/-- Modelled from the spec: `call_ll84_api_by_bbl` is imported and
called by `lib/waterfall.py` but absent from `lib/nyc_apis.py`; per
§4.2 it queries the live usage source directly by building key, catching
its own errors (a miss or failure is `None`). -/
def call_ll84_api_by_bbl (env : Env) (bbl : String) : Option PyDict :=
  env.ll84ByBbl bbl

/-- Modelled from the spec: the orchestrator calls
`call_ll84_api(bin_number, expected_bbl=bbl)`, but the `call_ll84_api`
in `lib/nyc_apis.py` takes no `expected_bbl` parameter.  Per §4.2 the
intended function queries the live usage source by secondary key and, if
the returned record carries an embedded primary key that does not equal
the key being resolved, discards the result as a false match. -/
def call_ll84_api (env : Env) (bin_number : Val) (expected_bbl : String) : Option PyDict :=
  match env.ll84ByBin bin_number with
  | none => none
  | some found =>
      match getKey found "bbl" with
      | none => some found
      | some v =>
          if truthy (some v) then
            if valAsString v = expected_bbl then some found else none
          else some found

/-- One checkpoint write handed to `upsert_building_metrics`: the
accumulated record at the moment of the write, and the dict written. -/
structure Checkpoint where
  snapshot : PyDict
  data : PyDict

/-- The orchestrator's running state: the accumulated record, the
`data_sources` provenance list, and the checkpoint writes issued. -/
structure FetchState where
  result : PyDict
  data_sources : List String
  writes : List Checkpoint

/-- Step 1 of `fetch_building_waterfall` (identity and compliance):
LL97 hit, else the PLUTO → GeoSearch fallback chain.  `ll97_data` is
what `_query_ll97` returned. -/
def step1Identity (env : Env) (bbl : String) (st : FetchState)
    (ll97_data : Option PyDict) : FetchState :=
  match ll97_data with
  | some d =>
      { st with result := dictUpdate st.result d,
                data_sources := st.data_sources ++ ["ll97"] }
  | none =>
      match env.plutoApi bbl with
      | none => st
      | some pluto_data =>
          if pluto_data.isEmpty then st
          else if truthy (getKey pluto_data "address") then
            let pluto_address := valAsString (getD pluto_data "address")
            let r1 := dictUpdate st.result
              [("year_built", getD pluto_data "year_built"),
               ("gfa", getD pluto_data "gfa"),
               ("address", getD pluto_data "address"),
               ("zip_code", getD pluto_data "zip_code")]
            let r2 :=
              if hasKey pluto_data "_pluto_api_raw" then
                setKey r1 "_pluto_api_raw" (getD pluto_data "_pluto_api_raw")
              else r1
            let srcs := st.data_sources ++ ["pluto"]
            match env.geosearchApi pluto_address with
            | some geosearch_data =>
                if truthy (getKey geosearch_data "bin") then
                  let r3 := setKey r2 "bin" (getD geosearch_data "bin")
                  let r4 :=
                    if hasKey geosearch_data "_geosearch_api_raw" then
                      setKey r3 "_geosearch_api_raw"
                        (getD geosearch_data "_geosearch_api_raw")
                    else r3
                  { st with result := r4, data_sources := srcs ++ ["geosearch"] }
                else { st with result := r2, data_sources := srcs }
            | none => { st with result := r2, data_sources := srcs }
          else
            let r1 := dictUpdate st.result
              [("year_built", getD pluto_data "year_built"),
               ("gfa", getD pluto_data "gfa"),
               ("zip_code", getD pluto_data "zip_code")]
            let r2 :=
              if hasKey pluto_data "_pluto_api_raw" then
                setKey r1 "_pluto_api_raw" (getD pluto_data "_pluto_api_raw")
              else r1
            { st with result := r2, data_sources := st.data_sources ++ ["pluto"] }

/-- The Step 2 usage lookup: LL84 by building key first; on a miss, the
guarded lookup by secondary key when one is known. -/
def usageLookup (env : Env) (bbl : String) (result : PyDict) : Option PyDict :=
  match call_ll84_api_by_bbl env bbl with
  | some d => some d
  | none =>
      if truthy (getKey result "bin") then
        call_ll84_api env (getD result "bin") bbl
      else none

/-- The `gfa_calculated` sum of Step 2: all positive use-type sqft
values of the accumulated record. -/
def gfaCalculated (r : PyDict) : ℚ :=
  USE_TYPE_SQFT_COLUMNS.foldl
    (fun (acc : ℚ) col =>
      let v := match getNum r col with
        | some q => q
        | none => 0
      if v > 0 then acc + v else acc)
    0

/-- Step 2 of `fetch_building_waterfall` (live usage): on an accepted
LL84 hit merge it and compute `gfa_calculated`; otherwise re-query PLUTO
for building metrics unless Step 1 already did. -/
def step2Usage (env : Env) (bbl : String) (st : FetchState) : FetchState :=
  match usageLookup env bbl st.result with
  | some ll84_data =>
      let r := dictUpdate st.result ll84_data
      let gfa_calc := gfaCalculated r
      let r2 := if gfa_calc > 0 then setKey r "gfa_calculated" (Val.num gfa_calc) else r
      { st with result := r2, data_sources := st.data_sources ++ ["ll84_api"] }
  | none =>
      if "pluto" ∈ st.data_sources then st
      else
        match env.plutoApi bbl with
        | none => st
        | some pluto_data =>
            if pluto_data.isEmpty then st
            else
              let r1 := dictUpdate st.result
                [("year_built", getD pluto_data "year_built"),
                 ("gfa", getD pluto_data "gfa"),
                 ("address", getD pluto_data "address"),
                 ("zip_code", getD pluto_data "zip_code")]
              let r2 :=
                if hasKey pluto_data "_pluto_api_raw" then
                  setKey r1 "_pluto_api_raw" (getD pluto_data "_pluto_api_raw")
                else r1
              { st with result := r2, data_sources := st.data_sources ++ ["pluto"] }

/-- The `building_name` fallback to the PLUTO owner name.  (With the
`call_pluto_api` of `lib/nyc_apis.py` the `_pluto_api_raw` key is never
produced, so the condition is never met; the branch is kept for
fidelity to the orchestrator's code.) -/
def buildingNameFallback (st : FetchState) : FetchState :=
  if ¬ truthy (getKey st.result "building_name") ∧
      truthy (getKey st.result "_pluto_api_raw") then
    match getKey st.result "_pluto_api_raw" with
    | some (.dict raw) =>
        if truthy (getKey raw "ownername") then
          { st with result := setKey st.result "building_name" (getD raw "ownername") }
        else st
    | _ => st
  else st

/-- Step 3 of `fetch_building_waterfall` (mechanical audit retrieval):
merge the selected LL87 row, if any. -/
def step3Audit (st : FetchState) (ll87_data : Option PyDict) : FetchState :=
  match ll87_data with
  | some d =>
      { st with result := dictUpdate st.result d,
                data_sources := st.data_sources ++ ["ll87"] }
  | none => st

/-- The six result keys of `calculate_ll97_penalty`, in the insertion
order of its result dict. -/
def penaltyKeys : List String :=
  ["ghg_emissions_2024_2029", "emissions_limit_2024_2029", "penalty_2024_2029",
   "ghg_emissions_2030_2034", "emissions_limit_2030_2034", "penalty_2030_2034"]

/-- A result value as stored into the record (`float(value)` is embedded
as the exact rational; `None` stays `None`). -/
def optNumToVal : Option ℚ → Val
  | some q => Val.num q
  | none => Val.null

/-- The six entries written into the record by Step 4. -/
def penaltyResultEntries (pr : PenaltyResult) : PyDict :=
  [("ghg_emissions_2024_2029", optNumToVal pr.ghg_emissions_2024_2029),
   ("emissions_limit_2024_2029", optNumToVal pr.emissions_limit_2024_2029),
   ("penalty_2024_2029", optNumToVal pr.penalty_2024_2029),
   ("ghg_emissions_2030_2034", optNumToVal pr.ghg_emissions_2030_2034),
   ("emissions_limit_2030_2034", optNumToVal pr.emissions_limit_2030_2034),
   ("penalty_2030_2034", optNumToVal pr.penalty_2030_2034)]

/-- The `any(v is not None for v in penalty_result.values())` check. -/
def anyPenaltyValue (pr : PenaltyResult) : Bool :=
  pr.ghg_emissions_2024_2029.isSome || pr.emissions_limit_2024_2029.isSome ||
    pr.penalty_2024_2029.isSome || pr.ghg_emissions_2030_2034.isSome ||
    pr.emissions_limit_2030_2034.isSome || pr.penalty_2030_2034.isSome

/-- Embedding of `result.get(key) or 0` for an energy quantity. -/
def energyOrZero (r : PyDict) (k : String) : ℚ :=
  match getNum r k with
  | some q => q
  | none => 0

/-- Step 4 of `fetch_building_waterfall` (penalty calculation).  The
whole step runs in a `try` block; in the embedding the calculation is
total and the checkpoint write's own failure is caught and only logged,
so the write is recorded and the pipeline continues either way. -/
def step4Penalty (bbl : String) (save_to_db : Bool) (st : FetchState) : FetchState :=
  let penalty_result := calculate_ll97_penalty
    (some (energyOrZero st.result "electricity_kwh"))
    (some (energyOrZero st.result "natural_gas_kbtu"))
    (some (energyOrZero st.result "fuel_oil_kbtu"))
    (some (energyOrZero st.result "steam_kbtu"))
    (extract_use_type_sqft st.result)
  if anyPenaltyValue penalty_result then
    let r := dictUpdate st.result (penaltyResultEntries penalty_result)
    let srcs := st.data_sources ++ ["calculated"]
    if save_to_db then
      let penalty_db_data := dictUpdate [("bbl", Val.str bbl)]
        (penaltyKeys.map (fun k => (k, getD r k)))
      { result := r, data_sources := srcs,
        writes := st.writes ++ [⟨r, penalty_db_data⟩] }
    else { st with result := r, data_sources := srcs }
  else st

/-- The `narrative_map` of Step 5, in source order. -/
def narrative_map : List (String × String) :=
  [("Building Envelope", "envelope_narrative"),
   ("Heating System", "heating_narrative"),
   ("Cooling System", "cooling_narrative"),
   ("Air Distribution System", "air_distribution_narrative"),
   ("Ventilation System", "ventilation_narrative"),
   ("Domestic Hot Water System", "dhw_narrative")]

/-- Step 5 of `fetch_building_waterfall` (narratives).  The step runs
in a `try` block: a raise from the generator abandons the step (the
record and provenance are untouched); otherwise each generated category
is stored under both the database column and the category key, and the
narrative checkpoint is written. -/
def step5Narrative (env : Env) (bbl : String) (save_to_db : Bool)
    (st : FetchState) : FetchState :=
  if env.apiKeyAvailable then
    match env.narrativeGen st.result with
    | .error _ => st
    | .ok narratives =>
        let r := narrative_map.foldl
          (fun acc kv =>
            match narratives.lookup kv.1 with
            | some text => setKey (setKey acc kv.2 (Val.str text)) kv.1 (Val.str text)
            | none => acc)
          st.result
        let srcs := st.data_sources ++ ["narratives"]
        if save_to_db then
          let narrative_db_data := dictUpdate [("bbl", Val.str bbl)]
            (narrative_map.filterMap (fun kv =>
              match getKey r kv.2 with
              | some v => some (kv.2, v)
              | none => none))
          { result := r, data_sources := srcs,
            writes := st.writes ++ [⟨r, narrative_db_data⟩] }
        else { st with result := r, data_sources := srcs }
  else st

/-- The keys the final save excludes from `Building_Metrics`
(`exclude_keys` in `lib/waterfall.py`; underscore keys are excluded by
`k.startswith('_')`). -/
def exclude_keys : List String :=
  ["ll87_raw", "Building Envelope", "Heating System", "Cooling System",
   "Air Distribution System", "Ventilation System", "Domestic Hot Water System"]

/-- The finalization of `fetch_building_waterfall`: set `data_source`
to the comma-joined provenance list and, when saving, write the full
accumulated record minus the excluded and underscore-prefixed keys. -/
def finalizeSave (save_to_db : Bool) (st : FetchState) : FetchState :=
  let r := setKey st.result "data_source"
    (Val.str (String.intercalate "," st.data_sources))
  if save_to_db then
    let db_data := r.filter
      (fun kv => !(exclude_keys.contains kv.1) && !(kv.1.startsWith "_"))
    { result := r, data_sources := st.data_sources,
      writes := st.writes ++ [⟨r, db_data⟩] }
  else { st with result := r }

/-- `fetch_building_waterfall` from `lib/waterfall.py`: the five steps
in order.  Only the two direct database queries can raise; a raise
aborts the remaining steps and propagates (the function body wraps only
Steps 4 and 5 in `try` blocks). -/
def fetch_building_waterfall (env : Env) (bbl : String) (save_to_db : Bool) :
    Except String FetchState := do
  let st0 : FetchState :=
    { result := [("bbl", Val.str bbl)], data_sources := [], writes := [] }
  let ll97_data ← query_ll97 env bbl
  let st1 := step1Identity env bbl st0 ll97_data
  let st2 := buildingNameFallback (step2Usage env bbl st1)
  let ll87_data ← query_ll87 env bbl
  let st3 := step3Audit st2 ll87_data
  let st4 := step4Penalty bbl save_to_db st3
  let st5 := step5Narrative env bbl save_to_db st4
  pure (finalizeSave save_to_db st5)

/-- The taxonomy of errors that can cross the entry point: the
`ValueError` raises of `resolve_and_fetch`, and a propagated database
exception. -/
inductive PyErr where
  | valueError (msg : String)
  | dbError (msg : String)
deriving DecidableEq, Repr

/-- The surface string of an input kind
(`result['input_type'] = input_type`). -/
def inputKindStr : InputKind → String
  | .bbl => "bbl"
  | .dashed_bbl => "dashed_bbl"
  | .address => "address"

/-- The address branch of `resolve_and_fetch`: resolve via GeoSearch,
raise `ValueError` when that fails, otherwise run the waterfall on the
resolved key and attach the resolution metadata. -/
def addressResolvePath (env : Env) (normalized : List Char) (save_to_db : Bool) :
    Except PyErr PyDict :=
  match env.geosearchApi (String.mk normalized) with
  | some geosearch_data =>
      if truthy (getKey geosearch_data "bbl") then
        let resolved_bbl := valAsString (getD geosearch_data "bbl")
        let resolved_bin := getKey geosearch_data "bin"
        let confidence := (getKey geosearch_data "confidence").getD (Val.num 0)
        match fetch_building_waterfall env resolved_bbl save_to_db with
        | .error e => .error (.dbError e)
        | .ok stF =>
            let r1 := setKey stF.result "input_type" (Val.str "address")
            let r2 := setKey r1 "resolved_bbl" (Val.str resolved_bbl)
            let r3 := setKey r2 "resolved_from_address" (Val.str (String.mk normalized))
            let r4 := setKey r3 "geosearch_confidence" confidence
            let r5 :=
              if truthy resolved_bin ∧ ¬ truthy (getKey r4 "bin") then
                setKey r4 "bin" (resolved_bin.getD Val.null)
              else r4
            .ok r5
      else .error (.valueError "Could not resolve address")
  | none => .error (.valueError "Could not resolve address")

/-- `resolve_and_fetch` from `lib/waterfall.py`: normalize the input,
raise `ValueError` on an invalid key, else run the waterfall (key path)
or resolve the address first (address path). -/
def resolve_and_fetch (env : Env) (user_input : List Char) (save_to_db : Bool) :
    Except PyErr PyDict :=
  let norm := normalize_input user_input
  match norm.1 with
  | .address => addressResolvePath env norm.2 save_to_db
  | k =>
      if ¬ validate_bbl norm.2 then .error (.valueError "Invalid BBL")
      else
        match fetch_building_waterfall env (String.mk norm.2) save_to_db with
        | .error e => .error (.dbError e)
        | .ok stF =>
            let r1 := setKey stF.result "input_type" (Val.str (inputKindStr k))
            let r2 := setKey r1 "resolved_bbl" (Val.str (String.mk norm.2))
            .ok r2

/-!
Metrics-store persistence (`upsert_building_metrics` in
`lib/storage.py`).  The store is keyed by the `bbl` column (a VARCHAR
primary key, so a string); a row is the dict of columns present.  The
SQL `INSERT ... ON CONFLICT (bbl) DO UPDATE SET col = EXCLUDED.col`
inserts the supplied non-NULL columns for a new key and, for an
existing key, overwrites exactly the supplied columns, leaving the
others untouched.
-/

/-- Whether a value is Python `None` (the upsert filters these out). -/
def Val.isNull : Val → Bool
  | .null => true
  | _ => false

/-- Lookup of a row by key in the store. -/
def storeGet : List (String × PyDict) → String → Option PyDict
  | [], _ => none
  | (k0, r0) :: rest, k => if k0 = k then some r0 else storeGet rest k

/-- Replace a row in place, or append it for a new key. -/
def storeSet : List (String × PyDict) → String → PyDict → List (String × PyDict)
  | [], k, r => [(k, r)]
  | (k0, r0) :: rest, k, r =>
      if k0 = k then (k0, r) :: rest else (k0, r0) :: storeSet rest k r

/-- The columns the `ON CONFLICT` clause never updates. -/
def upsertFixedColumns : List String :=
  ["bbl", "created_at", "updated_at"]

/-- `upsert_building_metrics` from `lib/storage.py`: raise on a missing
`bbl` key, filter out `None` values, then insert or update by the `bbl`
primary key. -/
def upsert_building_metrics (store : List (String × PyDict))
    (building_data : PyDict) : Except String (List (String × PyDict)) :=
  if ¬ hasKey building_data "bbl" then
    .error "building_data must contain bbl key"
  else
    let data := building_data.filter (fun kv => !(kv.2.isNull))
    match getKey data "bbl" with
    | none => .error "KeyError: bbl"
    | some bblv =>
        let bbl := valAsString bblv
        let updateData := data.filter (fun kv => !(upsertFixedColumns.contains kv.1))
        match storeGet store bbl with
        | none => .ok (store ++ [(bbl, data)])
        | some old => .ok (storeSet store bbl (dictUpdate old updateData))

/-- The last value an association list holds for a key (a later
`update` entry wins). -/
def assocLast : PyDict → String → Option Val
  | [], _ => none
  | kv :: rest, k =>
      match assocLast rest k with
      | some v => some v
      | none => if kv.1 = k then some kv.2 else none

theorem getKey_setKey (r : PyDict) (k0 k : String) (v : Val) :
    getKey (setKey r k0 v) k = if k0 = k then some v else getKey r k := by
  induction r with
  | nil => simp [setKey, getKey]
  | cons kv rest ih =>
      obtain ⟨k1, v1⟩ := kv
      by_cases h1 : k1 = k0
      · subst h1
        by_cases h2 : k1 = k
        · subst h2
          simp [setKey, getKey]
        · simp [setKey, getKey, h2]
      · by_cases h2 : k1 = k
        · subst h2
          simp [setKey, getKey, h1, Ne.symm h1]
        · simp [setKey, getKey, h1, h2, ih]

theorem getKey_dictUpdate (d : PyDict) :
    ∀ (r : PyDict) (k : String),
      getKey (dictUpdate r d) k =
        match assocLast d k with
        | some v => some v
        | none => getKey r k := by
  induction d with
  | nil => intro r k; simp [dictUpdate, assocLast]
  | cons kv rest ih =>
      intro r k
      obtain ⟨k0, v0⟩ := kv
      have hstep : dictUpdate r ((k0, v0) :: rest) = dictUpdate (setKey r k0 v0) rest := rfl
      rw [hstep, ih (setKey r k0 v0) k]
      rcases hlast : assocLast rest k with - | v
      · simp only [assocLast, hlast, getKey_setKey]
        by_cases hk : k0 = k
        · simp [hk]
        · simp [hk]
      · simp only [assocLast, hlast]

/-- Re-applying the same `update` to a dict changes nothing. -/
theorem dictUpdate_idem (r d : PyDict) (k : String) :
    getKey (dictUpdate (dictUpdate r d) d) k = getKey (dictUpdate r d) k := by
  rw [getKey_dictUpdate, getKey_dictUpdate]
  rcases hlast : assocLast d k with - | v <;> simp

theorem storeGet_storeSet_self (store : List (String × PyDict)) (b : String)
    (r : PyDict) : storeGet (storeSet store b r) b = some r := by
  induction store with
  | nil => simp [storeSet, storeGet]
  | cons kv rest ih =>
      obtain ⟨k0, r0⟩ := kv
      by_cases h : k0 = b
      · subst h
        simp [storeSet, storeGet]
      · simp [storeSet, storeGet, h, ih]

theorem storeGet_storeSet_other (store : List (String × PyDict)) (b b2 : String)
    (r : PyDict) (h : b ≠ b2) :
    storeGet (storeSet store b r) b2 = storeGet store b2 := by
  induction store with
  | nil => simp [storeSet, storeGet, h]
  | cons kv rest ih =>
      obtain ⟨k0, r0⟩ := kv
      by_cases h0 : k0 = b
      · subst h0
        simp [storeSet, storeGet, h]
      · by_cases h2 : k0 = b2
        · subst h2
          simp [storeSet, storeGet, h0]
        · simp [storeSet, storeGet, h0, h2, ih]

theorem storeGet_append_self (store : List (String × PyDict)) (b : String)
    (r : PyDict) (h : storeGet store b = none) :
    storeGet (store ++ [(b, r)]) b = some r := by
  induction store with
  | nil => simp [storeGet]
  | cons kv rest ih =>
      obtain ⟨k0, r0⟩ := kv
      by_cases h0 : k0 = b
      · subst h0
        simp [storeGet] at h
      · simp only [storeGet, if_neg h0] at h
        simp [storeGet, h0, ih h]

theorem storeGet_append_other (store : List (String × PyDict)) (b b2 : String)
    (r : PyDict) (h : b ≠ b2) :
    storeGet (store ++ [(b, r)]) b2 = storeGet store b2 := by
  induction store with
  | nil => simp [storeGet, h]
  | cons kv rest ih =>
      obtain ⟨k0, r0⟩ := kv
      by_cases h2 : k0 = b2
      · subst h2
        simp [storeGet]
      · simp [storeGet, h2, ih]

theorem assocLast_mem {d : PyDict} {k : String} {v : Val}
    (h : assocLast d k = some v) : (k, v) ∈ d := by
  induction d with
  | nil => simp [assocLast] at h
  | cons kv rest ih =>
      simp only [assocLast] at h
      rcases hlast : assocLast rest k with - | w
      · simp only [hlast] at h
        by_cases hk : kv.1 = k
        · rw [if_pos hk] at h
          obtain rfl := Option.some.inj h
          have hkv : (k, kv.2) = kv := by rw [← hk]
          rw [hkv]
          exact List.mem_cons_self _ _
        · rw [if_neg hk] at h
          cases h
      · simp only [hlast] at h
        obtain rfl := Option.some.inj h
        exact List.mem_cons_of_mem _ (ih hlast)

theorem getKey_of_mem_nodup {d : PyDict} {k : String} {v : Val}
    (hmem : (k, v) ∈ d) (hnd : (dictKeys d).Nodup) : getKey d k = some v := by
  induction d with
  | nil => cases hmem
  | cons kv rest ih =>
      simp only [dictKeys, List.map_cons, List.nodup_cons] at hnd
      rcases List.mem_cons.mp hmem with heq | hmem2
      · rw [← heq]
        simp [getKey]
      · have hk : k ∈ dictKeys rest := by
          have : (k, v).1 ∈ (rest.map Prod.fst) := List.mem_map_of_mem Prod.fst hmem2
          simpa [dictKeys] using this
        have hne : kv.1 ≠ k := by
          intro hcontra
          exact hnd.1 (by simpa [dictKeys, hcontra] using hk)
        simp only [getKey, if_neg hne]
        exact ih hmem2 (by simpa [dictKeys] using hnd.2)

theorem dictKeys_filter_nodup (d : PyDict) (p : String × Val → Bool)
    (hnd : (dictKeys d).Nodup) : (dictKeys (d.filter p)).Nodup := by
  have hsub : (dictKeys (d.filter p)).Sublist (dictKeys d) :=
    (List.filter_sublist d).map Prod.fst
  exact hnd.sublist hsub

/-- When every entry the update would write already holds the same
value, the update changes no lookup. -/
theorem getKey_dictUpdate_of_covered {row1 updateData : PyDict}
    (hcover : ∀ k v, assocLast updateData k = some v → getKey row1 k = some v)
    (k : String) : getKey (dictUpdate row1 updateData) k = getKey row1 k := by
  rw [getKey_dictUpdate]
  rcases hlast : assocLast updateData k with - | v
  · simp
  · exact (hcover k v hlast).symm

/-!
Claim C9: checkpoint-write semantics.
-/

/-- Upserting the same record twice under the same key leaves every
stored value as after the first upsert. -/
theorem upsert_building_metrics_idem (store : List (String × PyDict))
    (building_data : PyDict) (store1 store2 : List (String × PyDict))
    (hnd : (dictKeys building_data).Nodup)
    (h1 : upsert_building_metrics store building_data = .ok store1)
    (h2 : upsert_building_metrics store1 building_data = .ok store2) :
    ∀ b k, (storeGet store2 b).map (fun row => getKey row k) =
      (storeGet store1 b).map (fun row => getKey row k) := by
  by_cases hbk : hasKey building_data "bbl" = true
  · simp only [upsert_building_metrics, hbk, not_true, if_false] at h1 h2
    set data := building_data.filter (fun kv => !(kv.2.isNull)) with hdata
    rcases hga : getKey data "bbl" with - | bblv
    · simp only [hga] at h1
      cases h1
    · simp only [hga] at h1 h2
      set bbl := valAsString bblv with hbbl
      set updateData := data.filter (fun kv => !(upsertFixedColumns.contains kv.1))
        with hupd
      rcases hsg : storeGet store bbl with - | old
      · simp only [hsg] at h1
        injection h1 with h1
        subst h1
        have hsg1 : storeGet (store ++ [(bbl, data)]) bbl = some data :=
          storeGet_append_self store bbl data hsg
        simp only [hsg1] at h2
        injection h2 with h2
        subst h2
        intro b k
        by_cases hb : bbl = b
        · subst hb
          rw [storeGet_storeSet_self, hsg1]
          simp only [Option.map_some']
          congr 1
          apply getKey_dictUpdate_of_covered
          intro k2 v2 hlast
          have hnd2 : (dictKeys data).Nodup := dictKeys_filter_nodup _ _ hnd
          exact getKey_of_mem_nodup (List.mem_of_mem_filter (assocLast_mem hlast)) hnd2
        · rw [storeGet_storeSet_other _ _ _ _ hb]
      · simp only [hsg] at h1
        injection h1 with h1
        subst h1
        have hsg1 : storeGet (storeSet store bbl (dictUpdate old updateData)) bbl =
            some (dictUpdate old updateData) := storeGet_storeSet_self _ _ _
        simp only [hsg1] at h2
        injection h2 with h2
        subst h2
        intro b k
        by_cases hb : bbl = b
        · subst hb
          rw [storeGet_storeSet_self, hsg1]
          simp only [Option.map_some']
          congr 1
          exact dictUpdate_idem old updateData k
        · rw [storeGet_storeSet_other _ _ _ _ hb]
  · simp [upsert_building_metrics, hbk] at h1

/-- The final save of `fetch_building_waterfall` writes the full
accumulated record: every key of the snapshot outside the excluded and
underscore-prefixed ones is written, with its accumulated value. -/
theorem final_write_full (env : Env) (bbl : String) (stF : FetchState)
    (h : fetch_building_waterfall env bbl true = .ok stF) :
    ∃ w, stF.writes.getLast? = some w ∧
      w.data = w.snapshot.filter
        (fun kv => !(exclude_keys.contains kv.1) && !(kv.1.startsWith "_")) ∧
      ∀ k v, (k, v) ∈ w.snapshot → exclude_keys.contains k = false →
        k.startsWith "_" = false → (k, v) ∈ w.data := by
  rcases hq : query_ll97 env bbl with e | d97
  · rw [fetch_building_waterfall] at h
    simp only [hq] at h
    cases h
  · rcases ha : query_ll87 env bbl with e | d87
    · rw [fetch_building_waterfall] at h
      simp only [hq, ha] at h
      cases h
    · rw [fetch_building_waterfall] at h
      simp only [hq, ha, bind, Except.bind, pure, Except.pure] at h
      injection h with h
      subst h
      set st5 := step5Narrative env bbl true (step4Penalty bbl true (step3Audit
        (buildingNameFallback (step2Usage env bbl (step1Identity env bbl
          { result := [("bbl", Val.str bbl)], data_sources := [], writes := [] }
          d97))) d87)) with hst5
      set r := setKey st5.result "data_source"
        (Val.str (String.intercalate "," st5.data_sources)) with hr
      refine ⟨⟨r, r.filter
        (fun kv => !(exclude_keys.contains kv.1) && !(kv.1.startsWith "_"))⟩,
        ?_, rfl, ?_⟩
      · exact List.getLast?_concat _
      · intro k v hmem hex hus
        refine List.mem_filter.mpr ⟨hmem, ?_⟩
        simp only [Bool.and_eq_true, Bool.not_eq_true']
        exact ⟨hex, hus⟩

/-- A source environment on which the LL84 lookup by building key hits
with usage data (so Step 4 computes a penalty and checkpoints it),
identity and audit sources miss, and no narrative key is configured. -/
def envDeltaWrite : Env :=
  { ll97Table := fun _ => .ok none
    plutoApi := fun _ => none
    geosearchApi := fun _ => none
    ll84ByBbl := fun _ => some
      [("electricity_kwh", Val.num 10000000), ("office_sqft", Val.num 100000)]
    ll84ByBin := fun _ => none
    ll87Table := fun _ => .ok []
    apiKeyAvailable := false
    narrativeGen := fun _ => .error "" }

/-- Claim C9 counterexample: on `envDeltaWrite` the run issues two
checkpoint writes; the first (the Step-4 penalty checkpoint) has
`electricity_kwh` in the accumulated record but not in the dict it
writes — a delta, not the full record.  Only the final write carries
the field. -/
theorem checkpoint_delta_counterexample :
    (fetch_building_waterfall envDeltaWrite "1000000001" true).map
      (fun st => st.writes.map (fun w =>
        (hasKey w.snapshot "electricity_kwh", hasKey w.data "electricity_kwh"))) =
    .ok [(true, false), (true, true)] := by
  with_unfolding_all rfl

/-- Claim C9 as amended: the Step-4 and Step-5 checkpoints write only
the building key plus their stage's fields (deltas); it is the final
save that writes the full accumulated record (minus the excluded
`ll87_raw`, narrative-category and underscore-prefixed keys), each field
with its accumulated value, and re-writing the same record under the
same key through `upsert_building_metrics` is idempotent. -/
theorem checkpoint_write_semantics :
    (∀ (env : Env) (bbl : String) (stF : FetchState),
      fetch_building_waterfall env bbl true = .ok stF →
      ∃ w, stF.writes.getLast? = some w ∧
        w.data = w.snapshot.filter
          (fun kv => !(exclude_keys.contains kv.1) && !(kv.1.startsWith "_")) ∧
        ∀ k v, (k, v) ∈ w.snapshot → exclude_keys.contains k = false →
          k.startsWith "_" = false → (k, v) ∈ w.data) ∧
    (∀ (store : List (String × PyDict)) (building_data : PyDict)
        (store1 store2 : List (String × PyDict)),
      (dictKeys building_data).Nodup →
      upsert_building_metrics store building_data = .ok store1 →
      upsert_building_metrics store1 building_data = .ok store2 →
      ∀ b k, (storeGet store2 b).map (fun row => getKey row k) =
        (storeGet store1 b).map (fun row => getKey row k)) :=
  ⟨final_write_full, upsert_building_metrics_idem⟩

/-!
Claim C8: what crosses the orchestrator boundary.
-/

/-- When neither direct database query raises, the waterfall always
returns a record: penalty calculation, narrative generation and every
persistence write are absorbed (they run inside `try` blocks whose
failures are only logged). -/
theorem fetch_ok (env : Env) (bbl : String) (save_to_db : Bool)
    (h97 : ∃ v, env.ll97Table bbl = .ok v)
    (h87 : ∃ rows, env.ll87Table bbl = .ok rows) :
    ∃ st, fetch_building_waterfall env bbl save_to_db = .ok st := by
  obtain ⟨v, hv⟩ := h97
  obtain ⟨rows, hr⟩ := h87
  rcases hres : fetch_building_waterfall env bbl save_to_db with e | st
  · exfalso
    rw [fetch_building_waterfall] at hres
    simp only [query_ll97, query_ll87, hv, hr, Except.map, bind, Except.bind,
      pure, Except.pure] at hres
    cases hres
  · exact ⟨st, rfl⟩

/-- Claim C8 as amended: if the identity and audit database queries do
not raise, `resolve_and_fetch` either returns a record or raises
`ValueError` for an entry failure (malformed key or unresolvable
address) — failures of the penalty, narrative and persistence stages
are absorbed.  (A database exception from `_query_ll97`/`_query_ll87`
does propagate; see the counterexample.) -/
theorem orchestrator_error_boundary (env : Env) (user_input : List Char)
    (save_to_db : Bool)
    (h97 : ∀ b, ∃ v, env.ll97Table b = .ok v)
    (h87 : ∀ b, ∃ rows, env.ll87Table b = .ok rows) :
    (∃ r, resolve_and_fetch env user_input save_to_db = .ok r) ∨
    (∃ m, resolve_and_fetch env user_input save_to_db = .error (.valueError m)) := by
  rw [resolve_and_fetch]
  cases hk : (normalize_input user_input).1 with
  | address =>
      rw [addressResolvePath]
      rcases hg : env.geosearchApi (String.mk (normalize_input user_input).2)
          with - | g
      · right
        exact ⟨_, rfl⟩
      · by_cases hb : truthy (getKey g "bbl") = true
        · obtain ⟨st, hst⟩ := fetch_ok env (valAsString (getD g "bbl")) save_to_db
            (h97 _) (h87 _)
          left
          simp only [hb, if_true, hst]
          exact ⟨_, rfl⟩
        · right
          simp only [hb, if_false]
          exact ⟨_, rfl⟩
  | bbl =>
      by_cases hv : validate_bbl (normalize_input user_input).2 = true
      · obtain ⟨st, hst⟩ := fetch_ok env (String.mk (normalize_input user_input).2)
          save_to_db (h97 _) (h87 _)
        left
        simp only [hv, not_true, if_false, hst]
        exact ⟨_, rfl⟩
      · right
        simp only [hv, if_true]
        exact ⟨_, rfl⟩
  | dashed_bbl =>
      by_cases hv : validate_bbl (normalize_input user_input).2 = true
      · obtain ⟨st, hst⟩ := fetch_ok env (String.mk (normalize_input user_input).2)
          save_to_db (h97 _) (h87 _)
        left
        simp only [hv, not_true, if_false, hst]
        exact ⟨_, rfl⟩
      · right
        simp only [hv, if_true]
        exact ⟨_, rfl⟩

/-- A source environment whose identity database query raises. -/
def envDbFailure : Env :=
  { ll97Table := fun _ => .error "connection failed"
    plutoApi := fun _ => none
    geosearchApi := fun _ => none
    ll84ByBbl := fun _ => none
    ll84ByBin := fun _ => none
    ll87Table := fun _ => .ok []
    apiKeyAvailable := false
    narrativeGen := fun _ => .error "" }

/-- Claim C8 counterexample: on a valid key, a database failure inside
the Step-1 identity lookup (`_query_ll97` has no `except` clause)
propagates out of `resolve_and_fetch` as a non-validation error, so the
caller does not receive a best-effort record. -/
theorem db_error_crosses_boundary :
    validate_bbl ("1000000001").data = true ∧
    resolve_and_fetch envDbFailure ("1000000001").data true =
      .error (.dbError "connection failed") := by
  constructor
  · decide
  · with_unfolding_all rfl

/-- A source environment with healthy database queries whose narrative
generator always fails. -/
def envAllOk : Env :=
  { ll97Table := fun _ => .ok none
    plutoApi := fun _ => none
    geosearchApi := fun _ => none
    ll84ByBbl := fun _ => none
    ll84ByBin := fun _ => none
    ll87Table := fun _ => .ok []
    apiKeyAvailable := true
    narrativeGen := fun _ => .error "narrative generation failed" }

/-- Witness for C8: the boundary theorem applied on `envAllOk` to a
valid key. -/
theorem orchestrator_error_boundary_witness :
    (∃ r, resolve_and_fetch envAllOk ("1000000001").data true = .ok r) ∨
    (∃ m, resolve_and_fetch envAllOk ("1000000001").data true =
      .error (.valueError m)) :=
  orchestrator_error_boundary envAllOk ("1000000001").data true
    (fun _ => ⟨none, rfl⟩) (fun _ => ⟨[], rfl⟩)

/-!
Claim C1: the secondary-key (BIN) guard of the Usage Fetcher.
-/

/-- Claim C1: when the LL84 lookup by building key misses and a BIN is
known, the Fetcher queries by BIN; a hit whose embedded building key is
present and differs from the key being resolved is discarded, and
Step 2 proceeds exactly as if the BIN lookup had missed. -/
theorem usage_bin_guard (env : Env) (bbl : String) (st : FetchState)
    (found : PyDict) (b : Val)
    (hmiss : env.ll84ByBbl bbl = none)
    (hbin : truthy (getKey st.result "bin") = true)
    (hhit : env.ll84ByBin (getD st.result "bin") = some found)
    (hemb : getKey found "bbl" = some b)
    (htr : truthy (some b) = true)
    (hne : valAsString b ≠ bbl) :
    usageLookup env bbl st.result = none ∧
    step2Usage env bbl st =
      step2Usage { env with ll84ByBin := fun _ => none } bbl st := by
  have hguard : call_ll84_api env (getD st.result "bin") bbl = none := by
    simp [call_ll84_api, hhit, hemb, htr, hne]
  have hu : usageLookup env bbl st.result = none := by
    simp [usageLookup, call_ll84_api_by_bbl, hmiss, hbin, hguard]
  have hu2 : usageLookup { env with ll84ByBin := fun _ => none } bbl st.result = none := by
    simp [usageLookup, call_ll84_api_by_bbl, call_ll84_api, hmiss, hbin]
  refine ⟨hu, ?_⟩
  simp only [step2Usage, hu, hu2]

/-- A source environment whose BIN lookup returns a record embedding a
different building key. -/
def envGuard : Env :=
  { ll97Table := fun _ => .ok none
    plutoApi := fun _ => none
    geosearchApi := fun _ => none
    ll84ByBbl := fun _ => none
    ll84ByBin := fun _ => some
      [("bbl", Val.str "4000000000"), ("electricity_kwh", Val.num 5)]
    ll87Table := fun _ => .ok []
    apiKeyAvailable := false
    narrativeGen := fun _ => .error "" }

/-- A Step-2 state whose record carries a BIN. -/
def stGuard : FetchState :=
  { result := [("bbl", Val.str "1000000001"), ("bin", Val.str "1234567")]
    data_sources := []
    writes := [] }

/-- Witness for C1: the guard theorem applied on `envGuard`, where the
BIN hit embeds key 4000000000 while 1000000001 is being resolved. -/
theorem usage_bin_guard_witness :
    usageLookup envGuard "1000000001" stGuard.result = none ∧
    step2Usage envGuard "1000000001" stGuard =
      step2Usage { envGuard with ll84ByBin := fun _ => none } "1000000001" stGuard :=
  usage_bin_guard envGuard "1000000001" stGuard
    [("bbl", Val.str "4000000000"), ("electricity_kwh", Val.num 5)]
    (Val.str "4000000000") rfl (by decide) rfl rfl (by decide) (by decide)

/-!
Claim C10: a well-shaped dashed input whose digits fail key validation
is reclassified as an address.
-/

/-- Claim C10: an input matching `D-DDDDD-DDDD` whose 10 digits fail
`validate_bbl` is returned by `normalize_input` as an address
(unchanged but for stripping), and `resolve_and_fetch` then takes the
geocoding path instead of raising a key-validation error. -/
theorem dashed_shape_reclassified_as_address (env : Env) (user_input : List Char)
    (save_to_db : Bool)
    (hshape : isDashedShape (pyStrip user_input) = true)
    (hval : validate_bbl (bbl_from_dashed (pyStrip user_input)) = false) :
    normalize_input user_input = (InputKind.address, pyStrip user_input) ∧
    resolve_and_fetch env user_input save_to_db =
      addressResolvePath env (pyStrip user_input) save_to_db := by
  have hdet : detect_input_type (pyStrip user_input) = .dashed_bbl := by
    simp [detect_input_type, hshape]
  have hnorm : normalize_input user_input = (InputKind.address, pyStrip user_input) := by
    rw [normalize_input]
    simp [hdet, hval]
  refine ⟨hnorm, ?_⟩
  rw [resolve_and_fetch, hnorm]

/-- Witness for C10: the dashed input `0-11190-0036` (borough digit 0)
is geocoded as an address. -/
theorem dashed_shape_reclassified_witness :
    normalize_input ("0-11190-0036").data =
      (InputKind.address, pyStrip ("0-11190-0036").data) ∧
    resolve_and_fetch envAllOk ("0-11190-0036").data true =
      addressResolvePath envAllOk (pyStrip ("0-11190-0036").data) true :=
  dashed_shape_reclassified_as_address envAllOk ("0-11190-0036").data true
    (by decide) (by decide)
